import Mathlib

/-!
Verification development for the school-api repository.

The definitions below are a shallow embedding of the JavaScript source:
the query-option builder and paginated list handlers of the student,
teacher and course controllers, and the auth controller holding
register, login and getAllUsers over an in-memory user store.

JavaScript numeric coercion is modelled by the type JSNum: a value is
either an integer or NaN.  The functions parseIntJS and numberJS model
the builtins parseInt and Number on the fragment of strings that denote
optional-sign decimal integer literals surrounded by whitespace; every
other string behaves as a non-numeric one (parseInt still consumes a
leading signed digit prefix, as the builtin does).  Fractional, hex and
exponent literals are outside the modelled fragment.  An absent query
parameter (undefined in JavaScript) is modelled as Option.none, and both
builtins send it to NaN.
-/

namespace SchoolAPI

/-- Result of a JavaScript numeric coercion: an integer or NaN. -/
inductive JSNum where
  | nan : JSNum
  | int : Int → JSNum
deriving DecidableEq, Repr

/-- Decimal value of a list of digit characters, most significant first. -/
def digitsVal (ds : List Char) : Nat :=
  ds.foldl (fun a c => 10 * a + (c.toNat - 48)) 0

/-- Leading-whitespace skip, optional sign, longest digit prefix: the
JavaScript parseInt builtin on the modelled fragment. -/
def parseIntCore (cs : List Char) : JSNum :=
  let cs := cs.dropWhile (fun c => c.isWhitespace)
  let sgn : Int := match cs with
    | '-' :: _ => -1
    | _ => 1
  let cs := match cs with
    | '-' :: rest => rest
    | '+' :: rest => rest
    | other => other
  let ds := cs.takeWhile (fun c => c.isDigit)
  if ds.isEmpty then JSNum.nan else JSNum.int (sgn * (digitsVal ds : Int))

/-- Whitespace trim on a character list. -/
def trimChars (cs : List Char) : List Char :=
  ((cs.dropWhile (fun c => c.isWhitespace)).reverse.dropWhile
    (fun c => c.isWhitespace)).reverse

/-- The JavaScript Number builtin on the modelled fragment: trims
whitespace, sends the empty string to 0, a full signed digit string to
its value, and anything else to NaN. -/
def numberCore (cs : List Char) : JSNum :=
  let cs := trimChars cs
  match cs with
  | [] => JSNum.int 0
  | _ =>
    let sgn : Int := match cs with
      | '-' :: _ => -1
      | _ => 1
    let rest := match cs with
      | '-' :: r => r
      | '+' :: r => r
      | other => other
    if rest.isEmpty = false ∧ rest.all (fun c => c.isDigit) then
      JSNum.int (sgn * (digitsVal rest : Int))
    else JSNum.nan

/-- parseInt applied to a possibly absent string; parseInt(undefined) is NaN. -/
def parseIntJS : Option String → JSNum
  | none => JSNum.nan
  | some s => parseIntCore s.data

/-- Number applied to a possibly absent string; Number(undefined) is NaN. -/
def numberJS : Option String → JSNum
  | none => JSNum.nan
  | some s => numberCore s.data

/-- JavaScript `x || d` on a number x: NaN and 0 are falsy and yield the
default d, every other integer is returned unchanged. -/
def jsOrInt : JSNum → Int → Int
  | JSNum.nan, d => d
  | JSNum.int n, d => if n = 0 then d else n

/-- ASCII lowercasing of a string, modelling String.prototype.toLowerCase. -/
def jsLower (s : String) : String :=
  String.mk (s.data.map Char.toLower)

/-- The Sequelize models a handler may eager-load. -/
inductive Model where
  | Student : Model
  | Course : Model
  | Teacher : Model
deriving DecidableEq, Repr

/-- Sort direction of the order clause. -/
inductive SortDir where
  | asc : SortDir
  | desc : SortDir
deriving DecidableEq, Repr

/-- The raw query string of a list request; absent parameters are none. -/
structure RawQuery where
  limit : Option String
  page : Option String
  sort : Option String
  populate : Option String
deriving DecidableEq, Repr

/-- The query descriptor built by buildQueryOptions: limit, offset, order
and the list of models to eager-load. -/
structure QueryOptions where
  limit : Int
  offset : Int
  order : List (String × SortDir)
  includes : List Model
deriving DecidableEq, Repr

/-- JavaScript String.prototype.split on a comma separator. -/
def splitComma : List Char → List (List Char)
  | [] => [[]]
  | c :: cs =>
    match splitComma cs with
    | [] => [[]]
    | t :: ts => if c = ',' then [] :: t :: ts else (c :: t) :: ts

/-- The token normalisation r.trim().toLowerCase() of the populate parser. -/
def jsTrimLower (s : String) : String :=
  String.mk ((trimChars s.data).map Char.toLower)

/-- The relation tokens of a populate string:
query.populate.split(",").map(r => r.trim().toLowerCase()). -/
def populateTokens (p : String) : List String :=
  ((splitComma p.data).map String.mk).map jsTrimLower

/-- Eager-load list of the student controller builder (part_002 lines
17-22); the teacher controller (part_003 lines 16-22) holds a textually
identical copy.  An empty populate string is falsy and skips the block. -/
def studentIncludes : Option String → List Model
  | none => []
  | some p =>
    if p = "" then []
    else
      let relations := populateTokens p
      if "course" ∈ relations ∨ "all" ∈ relations then [Model.Course] else []

/-- Eager-load list of the course controller builder (part_003 lines
234-239): student and teacher relations, in push order. -/
def courseIncludes : Option String → List Model
  | none => []
  | some p =>
    if p = "" then []
    else
      let relations := populateTokens p
      (if "student" ∈ relations ∨ "all" ∈ relations then [Model.Student] else [])
        ++ (if "teacher" ∈ relations ∨ "all" ∈ relations then [Model.Teacher] else [])

/-- Resolved limit: Math.max(parseInt(query.limit) || 10, 1). -/
def resolvedLimit (q : RawQuery) : Int :=
  max (jsOrInt (parseIntJS q.limit) 10) 1

/-- Resolved page: Math.max(parseInt(query.page) || 1, 1). -/
def resolvedPage (q : RawQuery) : Int :=
  max (jsOrInt (parseIntJS q.page) 1) 1

/-- Sort direction: (query.sort || "asc").toLowerCase() === "desc". -/
def sortDirOf (sort : Option String) : SortDir :=
  let s := match sort with
    | none => "asc"
    | some s => if s = "" then "asc" else s
  if jsLower s = "desc" then SortDir.desc else SortDir.asc

/-- buildQueryOptions of the student controller (part_002 lines 6-25). -/
def buildQueryOptions (q : RawQuery) : QueryOptions :=
  { limit := resolvedLimit q
    offset := (resolvedPage q - 1) * resolvedLimit q
    order := [("createdAt", sortDirOf q.sort)]
    includes := studentIncludes q.populate }

/-- buildQueryOptions of the course controller (part_003 lines 223-242);
identical to the student copy except for the eager-load block. -/
def buildQueryOptionsCourse (q : RawQuery) : QueryOptions :=
  { limit := resolvedLimit q
    offset := (resolvedPage q - 1) * resolvedLimit q
    order := [("createdAt", sortDirOf q.sort)]
    includes := courseIncludes q.populate }

/-- Integer ceiling of a / b, the value of Math.ceil on an exact quotient;
agrees with the JavaScript result for every nonzero integer divisor,
negative divisors included. -/
def ceilDivInt (a b : Int) : Int :=
  -(Int.fdiv (-a) b)

/-- The pagination metadata of a list response body. -/
structure ListMeta where
  total : Nat
  page : Int
  limit : Int
  totalPages : Int
deriving DecidableEq, Repr

/-- Metadata of the list responses of getAllStudents (part_002 lines
90-96), getAllTeachers (part_003 lines 103-109) and getAllCourses
(part_003 lines 322-328), which are line for line the same:
total: count, page: Number(req.query.page) || 1,
limit: Number(req.query.limit) || 10,
totalPages: Math.ceil(count / (Number(req.query.limit) || 10)). -/
def listMeta (q : RawQuery) (count : Nat) : ListMeta :=
  { total := count
    page := jsOrInt (numberJS q.page) 1
    limit := jsOrInt (numberJS q.limit) 10
    totalPages := ceilDivInt (count : Int) (jsOrInt (numberJS q.limit) 10) }

/-- A JSON scalar value appearing in a response body. -/
inductive JVal where
  | s : String → JVal
  | n : Int → JVal
deriving DecidableEq, Repr

/-- A response body: a single JSON object or an array of JSON objects,
each object an ordered list of key-value pairs. -/
inductive JBody where
  | obj : List (String × JVal) → JBody
  | arr : List (List (String × JVal)) → JBody
deriving DecidableEq, Repr

/-- An HTTP response: status code and JSON body. -/
structure HttpResponse where
  status : Nat
  body : JBody
deriving DecidableEq, Repr

/-- A record of the in-memory user store of the auth controller. -/
structure StoredUser where
  id : Nat
  name : String
  email : String
  passwordHash : String
deriving DecidableEq, Repr

/-- The module-level mutable state of the auth controller: the users
array and the idCounter, which starts at 1. -/
structure AuthState where
  users : List StoredUser
  idCounter : Nat
deriving DecidableEq, Repr

/-- Body of a registration request; an absent field, being falsy like the
empty string, is modelled as the empty string. -/
structure RegisterReq where
  name : String
  email : String
  password : String
deriving DecidableEq, Repr

/-- Body of a login request. -/
structure LoginReq where
  email : String
  password : String
deriving DecidableEq, Repr

/-- Serialisation of a stored user with all own fields, in insertion
order, as the object spread operator sees it. -/
def userJson (u : StoredUser) : List (String × JVal) :=
  [("id", JVal.n (u.id : Int)), ("name", JVal.s u.name),
   ("email", JVal.s u.email), ("passwordHash", JVal.s u.passwordHash)]

/-- Rest-spread destructuring that drops one key:
const \x7b passwordHash: _, ...publicUser \x7d = newUser. -/
def omitKey (k : String) (o : List (String × JVal)) : List (String × JVal) :=
  o.filter (fun p => p.fst ≠ k)

/-- The register handler (auth.controller.js lines 54-72).  bcrypt.hash
is an external effect and enters as the function argument hash.  Returns
the updated store state and the response. -/
def register (hash : String → String) (st : AuthState) (r : RegisterReq) :
    AuthState × HttpResponse :=
  if r.name = "" ∨ r.email = "" ∨ r.password = "" then
    (st, ⟨400, JBody.obj [("message", JVal.s "Name, email, and password are required")]⟩)
  else if (st.users.find? (fun u => u.email == r.email)).isSome then
    (st, ⟨409, JBody.obj [("message", JVal.s "Email already registered")]⟩)
  else
    let newUser : StoredUser :=
      { id := st.idCounter, name := r.name, email := r.email,
        passwordHash := hash r.password }
    ({ users := st.users ++ [newUser], idCounter := st.idCounter + 1 },
     ⟨201, JBody.obj (omitKey "passwordHash" (userJson newUser))⟩)

/-- The login handler (auth.controller.js lines 110-125).  bcrypt.compare
and jwt.sign are external and enter as the function arguments compare and
sign; the store is read-only here. -/
def login (compare : String → String → Bool) (sign : Nat → String → String)
    (st : AuthState) (r : LoginReq) : HttpResponse :=
  if r.email = "" ∨ r.password = "" then
    ⟨400, JBody.obj [("message", JVal.s "Email and password are required")]⟩
  else
    match st.users.find? (fun u => u.email == r.email) with
    | none => ⟨401, JBody.obj [("message", JVal.s "Invalid credentials")]⟩
    | some u =>
      if compare r.password u.passwordHash then
        ⟨200, JBody.obj [("token", JVal.s (sign u.id u.email))]⟩
      else ⟨401, JBody.obj [("message", JVal.s "Invalid credentials")]⟩

/-- The getAllUsers handler (auth.controller.js lines 155-158):
users.map((\x7b passwordHash, ...u \x7d) => u). -/
def getAllUsers (st : AuthState) : HttpResponse :=
  ⟨200, JBody.arr (st.users.map (fun u => omitKey "passwordHash" (userJson u)))⟩

/-- A bearer token payload together with its signature.  Modelled from
the spec: the Token Service contract of section 4.1, since the verify
side lives in src/middlewares/auth.middleware.js and the jwt library,
neither of which is among the provided sources; auth.controller.js line
120 shows the sign call with expiresIn one hour. -/
structure Token where
  subjectId : Nat
  email : String
  issuedAt : Nat
  expiresAt : Nat
  sig : Nat
deriving DecidableEq, Repr

/-- Result of verifying a token.  Modelled from the spec: verify returns
the payload, or ExpiredToken past expiry, or MalformedToken when the
signature does not check. -/
inductive VerifyResult where
  | ok : Nat → String → VerifyResult
  | expiredToken : VerifyResult
  | malformedToken : VerifyResult
deriving DecidableEq, Repr

/-- Token issuance.  Modelled from the spec: issue(subjectId, email)
produces a signed token with issuedAt the current time and
expiresAt = issuedAt + 1 hour (3600 seconds); the signature scheme is
abstract and enters as the function argument mac applied to the shared
secret and the payload fields. -/
def issue (mac : Nat → Nat → String → Nat → Nat → Nat) (secret : Nat)
    (subjectId : Nat) (email : String) (now : Nat) : Token :=
  { subjectId := subjectId, email := email, issuedAt := now,
    expiresAt := now + 3600, sig := mac secret subjectId email now (now + 3600) }

/-- Token verification at a given time.  Modelled from the spec: a token
is accepted until exactly its expiry instant, then rejected with
ExpiredToken; a bad signature yields MalformedToken. -/
def verify (mac : Nat → Nat → String → Nat → Nat → Nat) (secret : Nat)
    (tok : Token) (now : Nat) : VerifyResult :=
  if tok.sig ≠ mac secret tok.subjectId tok.email tok.issuedAt tok.expiresAt then
    VerifyResult.malformedToken
  else if tok.expiresAt ≤ now then VerifyResult.expiredToken
  else VerifyResult.ok tok.subjectId tok.email

/-- A JavaScript number that is NaN or a nonnegative integer. -/
def jsNonNeg : JSNum → Prop
  | JSNum.nan => True
  | JSNum.int v => 0 ≤ v

instance : DecidablePred jsNonNeg := fun v =>
  match v with
  | JSNum.nan => isTrue trivial
  | JSNum.int n => inferInstanceAs (Decidable (0 ≤ n))

/-- Claim C2: for every raw query the builder returns a limit of at least
1 and a page of at least 1, with offset = (page - 1) * limit; in
particular limit "-5" with page "0" resolves to limit 1 and offset 0. -/
theorem buildQueryOptions_floors (q : RawQuery) :
    1 ≤ (buildQueryOptions q).limit ∧ 1 ≤ resolvedPage q ∧
    (buildQueryOptions q).offset = (resolvedPage q - 1) * (buildQueryOptions q).limit ∧
    (buildQueryOptions ⟨some "-5", some "0", none, none⟩).limit = 1 ∧
    (buildQueryOptions ⟨some "-5", some "0", none, none⟩).offset = 0 :=
  ⟨le_max_right _ _, le_max_right _ _, rfl, by decide, by decide⟩

/-- Claim C9: a limit that parses to the integer 0 is falsy and yields
the default 10 rather than the floor value 1, and a page that parses to 0
yields the default 1 by the same mechanism. -/
theorem zero_parsed_limit_and_page_use_defaults (q : RawQuery) :
    (parseIntJS q.limit = JSNum.int 0 → (buildQueryOptions q).limit = 10) ∧
    (parseIntJS q.page = JSNum.int 0 → resolvedPage q = 1) := by
  constructor
  · intro h
    show resolvedLimit q = 10
    rw [resolvedLimit, h]
    decide
  · intro h
    rw [resolvedPage, h]
    decide

theorem zero_parsed_limit_and_page_use_defaults_witness :
    parseIntJS (some "0") = JSNum.int 0 ∧
    (buildQueryOptions ⟨some "0", some "0", none, none⟩).limit = 10 ∧
    resolvedPage ⟨some "0", some "0", none, none⟩ = 1 :=
  ⟨by decide,
   (zero_parsed_limit_and_page_use_defaults ⟨some "0", some "0", none, none⟩).1 (by decide),
   (zero_parsed_limit_and_page_use_defaults ⟨some "0", some "0", none, none⟩).2 (by decide)⟩

/-- Claim C1 counterexample: for the raw query with limit "-5" and a
total count of 3, the response echoes limit -5, the raw coerced value,
while the resolved limit is 1, and reports totalPages 0 instead of
ceil(3 / 1) = 3; so list responses do not echo the resolved post-floor
values. -/
theorem listMeta_echoes_raw_limit_cex :
    (listMeta ⟨some "-5", none, none, none⟩ 3).limit = -5 ∧
    (buildQueryOptions ⟨some "-5", none, none, none⟩).limit = 1 ∧
    (listMeta ⟨some "-5", none, none, none⟩ 3).limit ≠
      (buildQueryOptions ⟨some "-5", none, none, none⟩).limit ∧
    (listMeta ⟨some "-5", none, none, none⟩ 3).totalPages = 0 ∧
    ceilDivInt 3 (buildQueryOptions ⟨some "-5", none, none, none⟩).limit = 3 := by
  decide

/-- Claim C1 as amended: the list response reports page and limit as the
Number coercion of the raw query string with falsy fallback to the
defaults, without the floor at 1, and computes totalPages from that
unfloored limit; the reported values agree with the resolved post-floor
ones, and totalPages equals ceil(total / limit) at the resolved limit,
whenever the raw page and limit coerce identically under Number and
parseInt to NaN or a nonnegative integer, for example when they are
absent or plain nonnegative decimal integer strings. -/
theorem listMeta_matches_resolved_on_canonical_query (q : RawQuery) (count : Nat)
    (hl : numberJS q.limit = parseIntJS q.limit) (hl0 : jsNonNeg (parseIntJS q.limit))
    (hp : numberJS q.page = parseIntJS q.page) (hp0 : jsNonNeg (parseIntJS q.page)) :
    (listMeta q count).total = count ∧
    (listMeta q count).page = resolvedPage q ∧
    (listMeta q count).limit = (buildQueryOptions q).limit ∧
    (listMeta q count).totalPages = ceilDivInt (count : Int) (buildQueryOptions q).limit := by
  have hlim : jsOrInt (numberJS q.limit) 10 = resolvedLimit q := by
    rw [hl, resolvedLimit]
    cases h : parseIntJS q.limit with
    | nan => decide
    | int v =>
      rw [h] at hl0
      simp only [jsNonNeg] at hl0
      by_cases hv : v = 0
      · subst hv; decide
      · simp only [jsOrInt, if_neg hv]
        exact (max_eq_left (by omega)).symm
  have hpage : jsOrInt (numberJS q.page) 1 = resolvedPage q := by
    rw [hp, resolvedPage]
    cases h : parseIntJS q.page with
    | nan => decide
    | int v =>
      rw [h] at hp0
      simp only [jsNonNeg] at hp0
      by_cases hv : v = 0
      · subst hv; decide
      · simp only [jsOrInt, if_neg hv]
        exact (max_eq_left (by omega)).symm
  refine ⟨rfl, hpage, hlim, ?_⟩
  show ceilDivInt (count : Int) (jsOrInt (numberJS q.limit) 10) =
    ceilDivInt (count : Int) (resolvedLimit q)
  rw [hlim]

theorem listMeta_matches_resolved_witness :
    numberJS (some "3") = parseIntJS (some "3") ∧ jsNonNeg (parseIntJS (some "3")) ∧
    numberJS (some "2") = parseIntJS (some "2") ∧ jsNonNeg (parseIntJS (some "2")) ∧
    (listMeta ⟨some "3", some "2", none, none⟩ 7).limit =
      (buildQueryOptions ⟨some "3", some "2", none, none⟩).limit ∧
    (listMeta ⟨some "3", some "2", none, none⟩ 7).totalPages =
      ceilDivInt 7 (buildQueryOptions ⟨some "3", some "2", none, none⟩).limit :=
  ⟨by decide, by decide, by decide, by decide,
   (listMeta_matches_resolved_on_canonical_query ⟨some "3", some "2", none, none⟩ 7
     (by decide) (by decide) (by decide) (by decide)).2.2.1,
   (listMeta_matches_resolved_on_canonical_query ⟨some "3", some "2", none, none⟩ 7
     (by decide) (by decide) (by decide) (by decide)).2.2.2⟩

/-- Claim C8: the populate parameter is split on commas with each token
trimmed and lowercased; a token list containing all yields every relation
valid for the entity, for the course controller both student and teacher;
and the eager-load result depends only on the membership of the
recognised tokens, so an unrecognised token is silently ignored and
causes no error; the spec example "course, ALL" includes every valid
relation. -/
theorem populate_all_and_unknown_tokens (p : String) :
    ("all" ∈ populateTokens p →
      courseIncludes (some p) = [Model.Student, Model.Teacher] ∧
      studentIncludes (some p) = [Model.Course]) ∧
    (∀ q : String, p ≠ "" → q ≠ "" →
      (("student" ∈ populateTokens p ↔ "student" ∈ populateTokens q) ∧
       ("teacher" ∈ populateTokens p ↔ "teacher" ∈ populateTokens q) ∧
       ("course" ∈ populateTokens p ↔ "course" ∈ populateTokens q) ∧
       ("all" ∈ populateTokens p ↔ "all" ∈ populateTokens q)) →
      courseIncludes (some p) = courseIncludes (some q) ∧
      studentIncludes (some p) = studentIncludes (some q)) ∧
    (studentIncludes (some "course, ALL") = [Model.Course] ∧
     courseIncludes (some "course, ALL") = [Model.Student, Model.Teacher]) := by
  refine ⟨?_, ?_, by decide, by decide⟩
  · intro h
    by_cases hp : p = ""
    · subst hp
      exact absurd h (by decide)
    · constructor <;> simp [courseIncludes, studentIncludes, hp, h]
  · intro q hp hq hmem
    obtain ⟨h1, h2, h3, h4⟩ := hmem
    constructor
    · simp only [courseIncludes, if_neg hp, if_neg hq]
      simp only [h1, h2, h4]
    · simp only [studentIncludes, if_neg hp, if_neg hq]
      simp only [h3, h4]

theorem populate_all_and_unknown_tokens_witness :
    ("all" ∈ populateTokens "all") ∧
    courseIncludes (some "all") = [Model.Student, Model.Teacher] ∧
    courseIncludes (some "student, bogus") = courseIncludes (some "student") :=
  ⟨by decide,
   ((populate_all_and_unknown_tokens "all").1 (by decide)).1,
   ((populate_all_and_unknown_tokens "student, bogus").2.1 "student"
     (by decide) (by decide) ⟨by decide, by decide, by decide, by decide⟩).1⟩

/-- Keys of the public serialisation of a stored user, in order. -/
theorem publicUserKeys (u : StoredUser) :
    (omitKey "passwordHash" (userJson u)).map Prod.fst = ["id", "name", "email"] := rfl

/-- Claim C4: with non-empty email and password, a login against a store
holding no user with that email and a login against a store whose
matching user fails the hash comparison produce the same response, the
401 invalid-credentials body, so the two failure causes are
indistinguishable to the caller. -/
theorem login_failure_indistinguishable
    (compare : String → String → Bool) (sign : Nat → String → String)
    (st1 st2 : AuthState) (r : LoginReq) (he : r.email ≠ "") (hpw : r.password ≠ "")
    (h1 : st1.users.find? (fun u => u.email == r.email) = none)
    (u : StoredUser) (h2 : st2.users.find? (fun u => u.email == r.email) = some u)
    (hc : compare r.password u.passwordHash = false) :
    login compare sign st1 r = login compare sign st2 r ∧
    login compare sign st1 r =
      ⟨401, JBody.obj [("message", JVal.s "Invalid credentials")]⟩ := by
  have hcond : ¬(r.email = "" ∨ r.password = "") := by
    rintro (h | h)
    · exact he h
    · exact hpw h
  constructor <;> simp [login, hcond, h1, h2, hc]

theorem login_failure_indistinguishable_witness :
    login (fun _ _ => false) (fun _ _ => "t") ⟨[], 1⟩ ⟨"a@b.c", "pw"⟩ =
      login (fun _ _ => false) (fun _ _ => "t")
        ⟨[⟨1, "A", "a@b.c", "h"⟩], 2⟩ ⟨"a@b.c", "pw"⟩ :=
  (login_failure_indistinguishable (fun _ _ => false) (fun _ _ => "t")
    ⟨[], 1⟩ ⟨[⟨1, "A", "a@b.c", "h"⟩], 2⟩ ⟨"a@b.c", "pw"⟩ (by decide) (by decide)
    rfl ⟨1, "A", "a@b.c", "h"⟩ (by decide) rfl).1

/-- Claim C5: a successful registration answers 201 with an object whose
keys are exactly id, name and email, with no passwordHash key; and for
every store state the user listing answers 200 with every entry projected
to exactly those keys, passwordHash absent from each. -/
theorem responses_omit_passwordHash (hash : String → String) (st : AuthState)
    (r : RegisterReq) (hn : r.name ≠ "") (he : r.email ≠ "") (hpw : r.password ≠ "")
    (hfresh : st.users.find? (fun u => u.email == r.email) = none) :
    (∃ o, (register hash st r).2 = ⟨201, JBody.obj o⟩ ∧
      o.map Prod.fst = ["id", "name", "email"] ∧
      "passwordHash" ∉ o.map Prod.fst) ∧
    (∃ l, getAllUsers st = ⟨200, JBody.arr l⟩ ∧
      ∀ o ∈ l, o.map Prod.fst = ["id", "name", "email"] ∧
        "passwordHash" ∉ o.map Prod.fst) := by
  have hcond : ¬(r.name = "" ∨ r.email = "" ∨ r.password = "") := by
    rintro (h | h | h)
    · exact hn h
    · exact he h
    · exact hpw h
  constructor
  · refine ⟨omitKey "passwordHash"
      (userJson ⟨st.idCounter, r.name, r.email, hash r.password⟩), ?_, ?_, ?_⟩
    · simp [register, hcond, hfresh]
    · exact publicUserKeys _
    · rw [publicUserKeys]; decide
  · refine ⟨st.users.map (fun u => omitKey "passwordHash" (userJson u)), rfl, ?_⟩
    intro o ho
    rcases List.mem_map.mp ho with ⟨u, _, rfl⟩
    exact ⟨publicUserKeys u, by rw [publicUserKeys]; decide⟩

theorem responses_omit_passwordHash_witness :
    ∃ o, (register (fun _ => "H") ⟨[], 1⟩ ⟨"Alice", "a@b.c", "pw"⟩).2 =
        ⟨201, JBody.obj o⟩ ∧
      o.map Prod.fst = ["id", "name", "email"] ∧
      "passwordHash" ∉ o.map Prod.fst :=
  (responses_omit_passwordHash (fun _ => "H") ⟨[], 1⟩ ⟨"Alice", "a@b.c", "pw"⟩
    (by decide) (by decide) (by decide) rfl).1

/-- Claim C6 counterexample: with a user of email alice@example.com in
the store, a registration request for that same email whose name field is
empty answers 400 with the missing-field message, not 409 DuplicateEmail:
the missing-field check runs first. -/
theorem register_duplicate_missing_name_cex :
    ((⟨1, "Alice", "alice@example.com", "h"⟩ : StoredUser) ∈
      (⟨[⟨1, "Alice", "alice@example.com", "h"⟩], 2⟩ : AuthState).users) ∧
    (register (fun p => p) ⟨[⟨1, "Alice", "alice@example.com", "h"⟩], 2⟩
      ⟨"", "alice@example.com", "pw"⟩).2.status = 400 ∧
    (register (fun p => p) ⟨[⟨1, "Alice", "alice@example.com", "h"⟩], 2⟩
      ⟨"", "alice@example.com", "pw"⟩).2.status ≠ 409 := by
  decide

/-- Claim C6 as amended: for every store state and every registration
request with non-empty name, email and password whose email equals the
email of a stored user, registration fails with the 409 DuplicateEmail
response and leaves the store unchanged; in particular, after a
registration with a fresh email, registering again with the same request
yields the 409 DuplicateEmail response. -/
theorem register_duplicate_email_conflict (hash : String → String)
    (st : AuthState) (r : RegisterReq)
    (hn : r.name ≠ "") (he : r.email ≠ "") (hpw : r.password ≠ "") :
    ((∃ u ∈ st.users, u.email = r.email) →
      register hash st r =
        (st, ⟨409, JBody.obj [("message", JVal.s "Email already registered")]⟩)) ∧
    (st.users.find? (fun u => u.email == r.email) = none →
      (register hash (register hash st r).1 r).2 =
        ⟨409, JBody.obj [("message", JVal.s "Email already registered")]⟩) := by
  have hcond : ¬(r.name = "" ∨ r.email = "" ∨ r.password = "") := by
    rintro (h | h | h)
    · exact hn h
    · exact he h
    · exact hpw h
  constructor
  · rintro ⟨u, hu, heq⟩
    have hsome : (st.users.find? (fun u => u.email == r.email)).isSome := by
      rw [List.find?_isSome]
      exact ⟨u, hu, by simp [heq]⟩
    simp [register, hcond, hsome]
  · intro hfresh
    have hstep : (register hash st r).1 =
        { users := st.users ++ [⟨st.idCounter, r.name, r.email, hash r.password⟩],
          idCounter := st.idCounter + 1 } := by
      simp [register, hcond, hfresh]
    rw [hstep]
    have hfind : (((st.users ++
        [⟨st.idCounter, r.name, r.email, hash r.password⟩] : List StoredUser)).find?
          (fun u => u.email == r.email)).isSome := by
      rw [List.find?_isSome]
      exact ⟨⟨st.idCounter, r.name, r.email, hash r.password⟩, by simp, by simp⟩
    simp [register, hcond, hfind]

theorem register_duplicate_email_conflict_witness :
    (register (fun _ => "H") (register (fun _ => "H") ⟨[], 1⟩
        ⟨"Alice", "a@b.c", "pw"⟩).1 ⟨"Alice", "a@b.c", "pw"⟩).2 =
      ⟨409, JBody.obj [("message", JVal.s "Email already registered")]⟩ :=
  (register_duplicate_email_conflict (fun _ => "H") ⟨[], 1⟩ ⟨"Alice", "a@b.c", "pw"⟩
    (by decide) (by decide) (by decide)).2 rfl

/-- Claim C7: every registration that fails validation, whether by a
missing required field or by a duplicate email, leaves the store state
unchanged: no user is added and the id counter is not advanced. -/
theorem register_validation_failure_preserves_state (hash : String → String)
    (st : AuthState) (r : RegisterReq)
    (h : r.name = "" ∨ r.email = "" ∨ r.password = "" ∨
         (st.users.find? (fun u => u.email == r.email)).isSome = true) :
    (register hash st r).1 = st := by
  by_cases h1 : r.name = "" ∨ r.email = "" ∨ r.password = ""
  · simp [register, h1]
  · have h2 : (st.users.find? (fun u => u.email == r.email)).isSome = true := by
      rcases h with h | h | h | h
      · exact absurd (Or.inl h) h1
      · exact absurd (Or.inr (Or.inl h)) h1
      · exact absurd (Or.inr (Or.inr h)) h1
      · exact h
    simp [register, h1, h2]

theorem register_validation_failure_preserves_state_witness :
    (register (fun _ => "H") ⟨[], 5⟩ ⟨"", "a@b.c", "pw"⟩).1 = (⟨[], 5⟩ : AuthState) :=
  register_validation_failure_preserves_state (fun _ => "H") ⟨[], 5⟩
    ⟨"", "a@b.c", "pw"⟩ (Or.inl rfl)

/-- Claim C10: the duplicate check compares emails case-sensitively: with
a stored user of email alice@example.com, registering Alice@example.com
succeeds with 201 rather than 409, leaving two stored users whose emails
differ only in letter case. -/
theorem register_email_case_sensitive :
    (register (fun _ => "h2") ⟨[⟨1, "Alice", "alice@example.com", "h1"⟩], 2⟩
        ⟨"Alicia", "Alice@example.com", "pw"⟩).2.status = 201 ∧
    (register (fun _ => "h2") ⟨[⟨1, "Alice", "alice@example.com", "h1"⟩], 2⟩
        ⟨"Alicia", "Alice@example.com", "pw"⟩).2.status ≠ 409 ∧
    (register (fun _ => "h2") ⟨[⟨1, "Alice", "alice@example.com", "h1"⟩], 2⟩
        ⟨"Alicia", "Alice@example.com", "pw"⟩).1.users.map StoredUser.email =
      ["alice@example.com", "Alice@example.com"] ∧
    jsLower "Alice@example.com" = jsLower "alice@example.com" ∧
    ("Alice@example.com" : String) ≠ "alice@example.com" := by
  decide

/-- Claim C3: a token issued at a given instant expires exactly one hour,
3600 seconds, later; verification with the same secret returns the
subject id and email at every time strictly before the expiry instant and
returns ExpiredToken at every time at or after it. -/
theorem token_issue_verify_roundtrip (mac : Nat → Nat → String → Nat → Nat → Nat)
    (secret subjectId : Nat) (email : String) (issuedAt t : Nat) :
    (issue mac secret subjectId email issuedAt).expiresAt = issuedAt + 3600 ∧
    (t < issuedAt + 3600 →
      verify mac secret (issue mac secret subjectId email issuedAt) t =
        VerifyResult.ok subjectId email) ∧
    (issuedAt + 3600 ≤ t →
      verify mac secret (issue mac secret subjectId email issuedAt) t =
        VerifyResult.expiredToken) := by
  refine ⟨rfl, ?_, ?_⟩
  · intro h
    simp [verify, issue, Nat.not_le.mpr h]
  · intro h
    simp [verify, issue, h]

theorem token_issue_verify_roundtrip_witness :
    (issue (fun _ _ _ _ _ => 0) 0 7 "a@b.c" 1000).expiresAt = 4600 ∧
    verify (fun _ _ _ _ _ => 0) 0 (issue (fun _ _ _ _ _ => 0) 0 7 "a@b.c" 1000) 4599 =
      VerifyResult.ok 7 "a@b.c" ∧
    verify (fun _ _ _ _ _ => 0) 0 (issue (fun _ _ _ _ _ => 0) 0 7 "a@b.c" 1000) 4600 =
      VerifyResult.expiredToken :=
  ⟨(token_issue_verify_roundtrip (fun _ _ _ _ _ => 0) 0 7 "a@b.c" 1000 4599).1,
   (token_issue_verify_roundtrip (fun _ _ _ _ _ => 0) 0 7 "a@b.c" 1000 4599).2.1
     (by decide),
   (token_issue_verify_roundtrip (fun _ _ _ _ _ => 0) 0 7 "a@b.c" 1000 4600).2.2
     (by decide)⟩

end SchoolAPI
